import Mathlib

/-!
# Verification of the nexus3-exporter core against its specification

Shallow embedding of `src/nexus3_exporter.py`.  The script bulk-downloads all
assets of a Nexus 3 repository: it pages through the listing endpoint
(`fetch_asset_listing`), then downloads every asset with SHA-1 verification and
a bounded retry loop (`download_assets`, `download_single_asset`, `sha1`).

Modelling conventions:
* File and response bodies are abstract byte lists (`Content`).
* The SHA-1 digest function is an explicit parameter `hash : Content → String`;
  the script's comparisons against `asset["checksum"]["sha1"]` are embedded
  exactly as it performs them (Python `==` on the digest strings).
* The local filesystem is a map `String → Option Content`; `os.path.isfile`
  is `Option.isSome`, `os.stat(..).st_size` is the byte-list length.
* HTTP is a reply oracle: the listing loop consumes a list of `ListingReply`
  (one per GET it issues) and each asset GET of attempt `t` is answered by
  `replies t`.  Observable side effects (GETs, file writes, directory
  creation, hash reads) are recorded as an `Ev` trace.
* `tqdm` progress bars, the `quiet` flag, credential prompting and TLS-warning
  suppression are presentation-layer I/O with no effect on the data flow and
  are not modelled (the spec declares them out of scope).
-/

namespace Nexus3

/-- Raw bytes of a file or of an HTTP response body. -/
abbrev Content := List Nat

/-- Local filesystem: maps a path to the bytes of the regular file stored
there, `none` when no file exists at that path. -/
abbrev FS := String → Option Content

/-- One asset descriptor of the listing: the fields of `asset["path"]`,
`asset["downloadUrl"]`, `asset["fileSize"]` and `asset["checksum"]["sha1"]`
that the script reads. -/
structure Asset where
  path : String
  downloadUrl : String
  fileSize : Nat
  checksumSha1 : String
deriving DecidableEq

/-- Observable side effects of the download pipeline. -/
inductive Ev where
  /-- Embeds `os.makedirs(dir, exist_ok=True)`. -/
  | mkdirs (dir : String)
  /-- an HTTP GET issued against `url` -/
  | get (url : String)
  /-- Embeds `open(path, "wb").write(content)`: truncate and rewrite the whole file. -/
  | write (path : String) (content : Content)
  /-- Embeds `sha1(path)`: the file at `path` is read and hashed. -/
  | hashFile (path : String)
deriving DecidableEq

/-- Embeds `open(path, "wb"); f.write(c)`: the file is truncated and holds exactly
`c` afterwards; every other path is untouched. -/
def fsWrite (fs : FS) (p : String) (c : Content) : FS :=
  fun q => if q = p then some c else fs q

/-- Embeds `sha1(file_path)` (source lines 148-150): read the whole file and
return its hex digest.  The script only calls it right after writing the
file, so the path always exists; the `getD []` default totalizes the read. -/
def sha1 (hash : Content → String) (fs : FS) (filePath : String) : String :=
  hash ((fs filePath).getD [])

/-- The server's reply to one `requests.get(asset["downloadUrl"], ...)`:
either the call raises `IOError`, or it returns a body of raw bytes. -/
inductive AssetReply where
  | ioError (msg : String)
  | body (content : Content)
deriving DecidableEq

/-- Result of `download_single_asset`: the returned value (`none` models the
Python return value `False`, i.e. success; `some e` the returned error
string), the final filesystem, the event trace and the number of GET
requests performed. -/
structure DsaOut where
  error : Option String
  fs : FS
  evs : List Ev
  gets : Nat

/-- Embeds `posixpath.dirname`: everything up to the last `/`, with trailing slashes
stripped unless the result is all slashes. -/
def dirname (p : String) : String :=
  let cs := p.toList
  let tailLen := (cs.reverse.takeWhile (fun c => c != '/')).length
  let head := cs.take (cs.length - tailLen)
  let head' :=
    if head.all (fun c => c == '/') then head
    else (head.reverse.dropWhile (fun c => c == '/')).reverse
  String.mk head'

/-- The retry loop of `download_single_asset` (source lines 126-145).
`tries` is the remaining portion of `range(1, 11)`; attempt `t` is answered
by `replies t`.  Each iteration GETs the asset, truncate-writes the body to
`filePath`, and then either returns immediately (`no_verify`), returns on a
digest match, or retries on a mismatch.  Running out of tries yields the
terminal checksum error. -/
def dsaLoop (hash : Content → String) (noVerify : Bool) (filePath : String)
    (asset : Asset) (replies : Nat → AssetReply) :
    List Nat → FS → DsaOut
  | [], fs => ⟨some "Repeated SHA-1 verification failure", fs, [], 0⟩
  | t :: rest, fs =>
    match replies t with
    | .ioError m => ⟨some ("IO error: " ++ m), fs, [.get asset.downloadUrl], 1⟩
    | .body c =>
      let fs' := fsWrite fs filePath c
      if noVerify then
        ⟨none, fs', [.get asset.downloadUrl, .write filePath c], 1⟩
      else if asset.checksumSha1 = sha1 hash fs' filePath then
        ⟨none, fs', [.get asset.downloadUrl, .write filePath c, .hashFile filePath], 1⟩
      else
        let out := dsaLoop hash noVerify filePath asset replies rest fs'
        ⟨out.error, out.fs,
          .get asset.downloadUrl :: .write filePath c :: .hashFile filePath :: out.evs,
          out.gets + 1⟩

/-- Embeds `download_single_asset(quiet, auth, file_path, no_verify, asset)`
(source lines 123-145): create the parent directories, then run the retry
loop for `tryy in range(1, 11)`, i.e. attempts 1 up to and including 10. -/
def download_single_asset (hash : Content → String) (noVerify : Bool)
    (filePath : String) (asset : Asset) (replies : Nat → AssetReply) (fs : FS) :
    DsaOut :=
  let out := dsaLoop hash noVerify filePath asset replies (List.range' 1 10) fs
  ⟨out.error, out.fs, .mkdirs (dirname filePath) :: out.evs, out.gets⟩

/-- Embeds `asset["path"].lstrip("/")`: remove every leading `/`. -/
def lstripSlash (s : String) : String :=
  String.mk (s.toList.dropWhile (fun c => c == '/'))

/-- Embeds `s.lower()` on strings; used only to state what a checksum that differs
from another "only in letter case" means. -/
def pyLower (s : String) : String :=
  String.mk (s.toList.map Char.toLower)

/-- Embeds `b.startswith(pre)` on strings. -/
def pyStartsWith (s pre : String) : Bool :=
  pre.toList.isPrefixOf s.toList

/-- Embeds `a.endswith(suf)` on strings. -/
def pyEndsWith (s suf : String) : Bool :=
  suf.toList.isSuffixOf s.toList

/-- Embeds `posixpath.join(a, b)` for two components: an absolute `b` replaces `a`;
otherwise `b` is appended, inserting a `/` unless `a` is empty or already
ends with one. -/
def pathJoin (a b : String) : String :=
  if pyStartsWith b "/" then b
  else if a = "" ∨ pyEndsWith a "/" then a ++ b
  else a ++ "/" ++ b

/-- Source lines 110-111: the local path an asset is stored at,
`os.path.join(output_dir, asset["path"].lstrip("/"))`. -/
def localFilePath (outputDir : String) (assetPath : String) : String :=
  pathJoin outputDir (lstripSlash assetPath)

/-- Embeds `os.path.isfile(p) and os.stat(p).st_size == n` in the mirror-mode skip
condition (source line 112). -/
def isFileWithSize (fs : FS) (p : String) (n : Nat) : Bool :=
  match fs p with
  | some c => c.length == n
  | none => false

/-- Outcome of the per-asset driver loop `download_assets`: it either
finishes, or aborts the run with an exit code and the printed error text. -/
inductive RunRes where
  | done
  | abort (code : Nat) (msg : String)
deriving DecidableEq

/-- Embeds `download_assets(quiet, auth, output_dir, no_verify, asset_listing,
mirror)` (source lines 107-120): for each asset, compute the local path, in
mirror mode skip it when a file of the expected size is already present,
otherwise download it; a returned error aborts the whole run via `abort(4)`.
`net url t` answers the `t`-th GET of the asset served at `url`. -/
def download_assets (hash : Content → String) (outputDir : String)
    (noVerify mirror : Bool) (net : String → Nat → AssetReply) :
    List Asset → FS → RunRes × FS × List Ev
  | [], fs => (.done, fs, [])
  | a :: rest, fs =>
    let filePath := localFilePath outputDir a.path
    if mirror && isFileWithSize fs filePath a.fileSize then
      download_assets hash outputDir noVerify mirror net rest fs
    else
      let out := download_single_asset hash noVerify filePath a (net a.downloadUrl) fs
      match out.error with
      | some e =>
        (.abort 4 ("Failed downloading '" ++ filePath ++
            "' due to the following error:\n" ++ e), out.fs, out.evs)
      | none =>
        let next := download_assets hash outputDir noVerify mirror net rest out.fs
        (next.1, next.2.1, out.evs ++ next.2.2)

/-! ## The `urljoin` model

`fetch_asset_listing` builds its endpoint with
`urljoin(server_url, f"service/rest/v1/assets?repository={repo_name}")`
(source line 75).  The functions below embed CPython's
`urllib.parse.urljoin` for the shapes that call can produce: the base is
either of the form `scheme://netloc[/path][?query][#fragment]` (which `main`
guarantees by prepending `http://` when `"://"` is absent) or a scheme-less
path, and the reference is a relative path reference (it starts with
`service/`, so CPython never parses a scheme or netloc out of it). -/

/-- Split `cs` at the first occurrence of `pat`, returning the part before it
and the part after it, or `none` when `pat` does not occur. -/
def findSplit (pat : List Char) : List Char → Option (List Char × List Char)
  | [] => none
  | c :: cs =>
    if pat.isPrefixOf (c :: cs) then some ([], (c :: cs).drop pat.length)
    else
      match findSplit pat cs with
      | some (pre, post) => some (c :: pre, post)
      | none => none

/-- Embeds `s.split(sep)` for a single-character separator. -/
def splitOnChar (sep : Char) : List Char → List (List Char)
  | [] => [[]]
  | c :: cs =>
    let r := splitOnChar sep cs
    if c == sep then [] :: r
    else
      match r with
      | [] => [[c]]
      | x :: xs => (c :: x) :: xs

/-- Embeds `sep.join(segments)` for a single-character separator. -/
def joinSeg (sep : Char) : List (List Char) → List Char
  | [] => []
  | [x] => x
  | x :: xs => x ++ sep :: joinSeg sep xs

/-- Characters CPython accepts inside a URL scheme. -/
def isSchemeChar (c : Char) : Bool :=
  c.isAlphanum || c == '+' || c == '-' || c == '.'

/-- The components `urlsplit` extracts from a URL. -/
structure SplitUrl where
  scheme : String
  netloc : String
  path : String
  query : String
  fragment : String
deriving DecidableEq

/-- Embeds `urllib.parse.urlsplit` for the URL shapes described above: a lowercased
scheme before `://`, the netloc up to the first of `/?#`, then the fragment
after the first `#` and the query after the first `?`. -/
def urlsplitApprox (url : String) : SplitUrl :=
  let cs := url.toList
  let (scheme, netloc, rest) :=
    match findSplit [':', '/', '/'] cs with
    | some (pre, post) =>
      if pre ≠ [] ∧ pre.all isSchemeChar then
        let nl := post.takeWhile (fun c => c != '/' && c != '?' && c != '#')
        (String.mk (pre.map Char.toLower), String.mk nl, post.drop nl.length)
      else ("", "", cs)
    | none => ("", "", cs)
  let (beforeFrag, frag) :=
    match findSplit ['#'] rest with
    | some (a, b) => (a, b)
    | none => (rest, [])
  let (path, query) :=
    match findSplit ['?'] beforeFrag with
    | some (a, b) => (a, b)
    | none => (beforeFrag, [])
  ⟨scheme, netloc, String.mk path, String.mk query, String.mk frag⟩

/-- CPython's trailing-`.` fixup: `if segments[-1] == '.': segments[-1] = ''`. -/
def fixLastDot (segs : List (List Char)) : List (List Char) :=
  match segs.getLast? with
  | some s => if s = ['.'] then segs.dropLast ++ [[]] else segs
  | none => segs

/-- One round of CPython's `..` resolution: find the first segment pair
`(a, '..')` where `a` is neither empty nor `..` and `..` is not the final
segment, and delete both. -/
def findDel : List (List Char) → Option (List (List Char))
  | a :: b :: c :: rest =>
    if b = ['.', '.'] ∧ a ≠ ([] : List Char) ∧ a ≠ ['.', '.'] then
      some (c :: rest)
    else
      match findDel (b :: c :: rest) with
      | some l => some (a :: l)
      | none => none
  | _ => none

/-- Iterate `findDel` to a fixed point (each round removes two segments, so
the segment count bounds the rounds). -/
def resolveLoop : Nat → List (List Char) → List (List Char)
  | 0, segs => segs
  | fuel + 1, segs =>
    match findDel segs with
    | some segs' => resolveLoop fuel segs'
    | none => segs

/-- CPython's final `..` fixups on the resolved segment list. -/
def fixTrailDots (segs : List (List Char)) : List (List Char) :=
  if segs = [[], ['.', '.']] then [[], []]
  else if 2 ≤ segs.length ∧ segs.getLast? = some ['.', '.'] then
    segs.dropLast.dropLast ++ [[]]
  else segs

/-- Embeds `urllib.parse.urlunsplit`. -/
def unsplitUrl (scheme netloc path query frag : String) : String :=
  let p := path.toList
  let u1 :=
    if netloc ≠ "" ∨ ['/', '/'].isPrefixOf p then
      let p' := if p ≠ [] ∧ p.head? ≠ some '/' then '/' :: p else p
      '/' :: '/' :: netloc.toList ++ p'
    else p
  let u2 := if scheme ≠ "" then scheme.toList ++ ':' :: u1 else u1
  let u3 := if query ≠ "" then u2 ++ '?' :: query.toList else u2
  let u4 := if frag ≠ "" then u3 ++ '#' :: frag.toList else u3
  String.mk u4

/-- Embeds `urllib.parse.urljoin(base, ref)` for the shapes described above: merge
the base path up to and including its last `/` with the reference path,
resolve `.` and `..` segments, and take the reference's query and
fragment. -/
def urljoin (base ref : String) : String :=
  if base = "" then ref
  else if ref = "" then base
  else
    let b := urlsplitApprox base
    let r := urlsplitApprox ref
    if r.scheme ≠ "" ∧ r.scheme ≠ b.scheme then ref
    else if r.netloc ≠ "" then
      unsplitUrl b.scheme r.netloc r.path r.query r.fragment
    else if r.path = "" then
      unsplitUrl b.scheme b.netloc b.path
        (if r.query = "" then b.query else r.query) r.fragment
    else
      let bsegs := (splitOnChar '/' b.path.toList).dropLast
      let rsegs := splitOnChar '/' r.path.toList
      let segs0 := fixLastDot (bsegs ++ rsegs)
      let segs1 := segs0.filter (fun s => s != ['.'])
      let segs2 := fixTrailDots (resolveLoop segs1.length segs1)
      unsplitUrl b.scheme b.netloc (String.mk (joinSeg '/' segs2))
        r.query r.fragment

/-! ## The asset-listing fetcher -/

/-- The listing endpoint URL, `asset_api_url` of source line 75. -/
def nexusApi (serverUrl repoName : String) : String :=
  urljoin serverUrl ("service/rest/v1/assets?repository=" ++ repoName)

/-- The server's reply to one listing GET: the call raises `IOError`, or the
body is not JSON (`resp.json()` raises `JSONDecodeError`), or it decodes to
an object whose `items` and `continuationToken` keys are each either absent
(`none`) or present; a present `continuationToken` is a string or JSON
`null` (`some none`). -/
inductive ListingReply where
  | ioError (msg : String)
  | badJson
  | page (items : Option (List Asset)) (continuationToken : Option (Option String))
deriving DecidableEq

/-- The Python variable `continuation_token`: the sentinel `-1` before the
first request, afterwards the `continuationToken` value of the last page
(`none` models JSON `null`). -/
inductive CT where
  | first
  | tok (t : Option String)
deriving DecidableEq

/-- Python truthiness of `continuation_token` in `while continuation_token:`
(`-1` is truthy, `None` and `""` are falsy). -/
def CT.truthy : CT → Bool
  | .first => true
  | .tok none => false
  | .tok (some t) => t != ""

/-- Embeds `query_url` of source lines 82-85: the bare API URL on the first
iteration, otherwise the API URL with the continuation token appended. -/
def queryUrl (apiUrl : String) : CT → String
  | .first => apiUrl
  | .tok (some t) => apiUrl ++ "&continuationToken=" ++ t
  | .tok none => apiUrl

/-- The message printed when `resp.json()` raises `JSONDecodeError`
(source lines 95-96). -/
def jsonErrMsg (serverUrl repoName : String) : String :=
  "Cannot decode JSON response. Are you sure that the server URL " ++
    serverUrl ++ " is correct and the repository '" ++ repoName ++
    "' actually exists?"

/-- Result of `fetch_asset_listing`: the accumulated listing on normal
termination, `abort` with exit code 2 (`IOError`) or 3 (`JSONDecodeError`)
and the printed message, an uncaught `KeyError` on a missing dictionary key,
or `hang` when the reply oracle is exhausted while the loop still wants to
issue a request (an incompletely specified server, never a program state). -/
inductive FetchRes where
  | ok (listing : List Asset)
  | abort (code : Nat) (msg : String)
  | keyError (key : String)
  | hang
deriving DecidableEq

/-- The pagination loop of `fetch_asset_listing` (source lines 77-102),
returning the result together with the list of URLs it GETs, in order.
Each iteration reads `resp["continuationToken"]` before `resp["items"]`,
exactly as lines 99-100 do, so a missing `continuationToken` key raises
before the page's items are ingested. -/
def fetchLoop (serverUrl repoName apiUrl : String) :
    List ListingReply → CT → List Asset → FetchRes × List String
  | [], token, acc =>
    if token.truthy then (.hang, []) else (.ok acc, [])
  | rep :: rest, token, acc =>
    if token.truthy then
      let url := queryUrl apiUrl token
      match rep with
      | .ioError m => (.abort 2 ("IO error: " ++ m), [url])
      | .badJson => (.abort 3 (jsonErrMsg serverUrl repoName), [url])
      | .page items ctok =>
        match ctok with
        | none => (.keyError "continuationToken", [url])
        | some t =>
          match items with
          | none => (.keyError "items", [url])
          | some its =>
            let out := fetchLoop serverUrl repoName apiUrl rest (.tok t) (acc ++ its)
            (out.1, url :: out.2)
    else (.ok acc, [])

/-- Embeds `fetch_asset_listing(quiet, auth, server_url, repo_name)`
(source lines 74-104). -/
def fetch_asset_listing (serverUrl repoName : String)
    (replies : List ListingReply) : FetchRes × List String :=
  fetchLoop serverUrl repoName (nexusApi serverUrl repoName) replies .first []

/-! ## The orchestrator `main` -/

/-- The command-line arguments `main` reads (the credential, quiet and
progress options are presentation-layer only and not modelled). -/
structure Args where
  server : String
  repo : String
  outputDir : Option String
  noVerify : Bool
  mirror : Bool
deriving DecidableEq

/-- Source lines 49-50: `if not output_dir: output_dir = repo_name`
(both an absent `-o` and an empty string are falsy). -/
def resolveOutputDir (args : Args) : String :=
  match args.outputDir with
  | none => args.repo
  | some s => if s = "" then args.repo else s

/-- Source lines 57-58: prepend `http://` when the server URL has no
`://`. -/
def normalizeServer (s : String) : String :=
  if (findSplit [':', '/', '/'] s.toList).isSome then s else "http://" ++ s

/-- Outcome of a whole run of `main`. -/
inductive MainRes where
  | finished
  | abort (code : Nat) (msg : String)
  | keyError (key : String)
  | hang
deriving DecidableEq

/-- Embeds `main` (source lines 15-66) from argument handling onwards:
resolve the output directory, fail with `abort(1)` when it exists and mirror
mode is off, otherwise fetch the listing and drive the downloads.
`exists0` is `os.path.exists` at startup; the returned trace holds every GET
and filesystem mutation of the run, in order. -/
def main_model (hash : Content → String) (args : Args)
    (exists0 : String → Bool) (listingReplies : List ListingReply)
    (net : String → Nat → AssetReply) (fs : FS) :
    MainRes × FS × List Ev :=
  let outputDir := resolveOutputDir args
  if exists0 outputDir && !args.mirror then
    (.abort 1 ("Output directory '" ++ outputDir ++
        "' already exists. Please delete it and then re-run the script."),
      fs, [])
  else
    let serverUrl := normalizeServer args.server
    let fetched := fetch_asset_listing serverUrl args.repo listingReplies
    let fetchEvs := fetched.2.map Ev.get
    match fetched.1 with
    | .ok listing =>
      let run := download_assets hash outputDir args.noVerify args.mirror net listing fs
      (match run.1 with
       | .done => .finished
       | .abort c m => .abort c m,
       run.2.1, fetchEvs ++ run.2.2)
    | .abort c m => (.abort c m, fs, fetchEvs)
    | .keyError k => (.keyError k, fs, fetchEvs)
    | .hang => (.hang, fs, fetchEvs)

/-! ## Derived notions used by the statements -/

/-- The event trace of a run of failed verification attempts: attempt `t`
GETs the asset, truncate-writes body `b t`, and hashes the file. -/
def mismatchEvs (url filePath : String) (b : Nat → Content) : List Nat → List Ev
  | [] => []
  | t :: rest =>
    .get url :: .write filePath (b t) :: .hashFile filePath ::
      mismatchEvs url filePath b rest

/-- A well-formed non-final catalog page, given as its `items` list and its
(non-null) continuation token. -/
abbrev PageData := List Asset × String

/-- The listing replies encoding a run of well-formed non-final pages. -/
def encodePages (ps : List PageData) : List ListingReply :=
  ps.map (fun p => ListingReply.page (some p.1) (some (some p.2)))

/-- The value of `continuation_token` after ingesting the pages `ps`,
starting from `token`. -/
def lastCT (token : CT) : List PageData → CT
  | [] => token
  | p :: rest => lastCT (CT.tok (some p.2)) rest

/-- The URLs requested while consuming the pages `ps`, starting with the
token state `token`. -/
def urlsOf (apiUrl : String) (token : CT) : List PageData → List String
  | [] => []
  | p :: rest => queryUrl apiUrl token :: urlsOf apiUrl (CT.tok (some p.2)) rest

/-! ## Concrete fixtures used by witnesses and counterexamples -/

/-- Digest oracle whose only matching body is `[10]`. -/
def wHash : Content → String := fun c => if c = [10] then "ok" else "no"

/-- Digest oracle that never matches `"zz"`. -/
def w2Hash : Content → String := fun _ => "no"

/-- Asset whose expected digest is produced by `wHash [10]`. -/
def wAsset : Asset := ⟨"/com/example/a.jar", "http://h/dl/a.jar", 3, "ok"⟩

/-- Asset whose expected digest `w2Hash` never produces. -/
def w2Asset : Asset := ⟨"/com/example/b.jar", "http://h/dl/b.jar", 2, "zz"⟩

/-- Reply oracle serving body `[t]` on attempt `t`. -/
def wReplies : Nat → AssetReply := fun t => .body [t]

/-- The empty local filesystem. -/
def wFs : FS := fun _ => none

/-- A filesystem already holding a 3-byte file at `out/com/example/a.jar`. -/
def wFs6 : FS := fun p => if p = "out/com/example/a.jar" then some [0, 0, 0] else none

/-- A network oracle that always fails; used where no GET may happen. -/
def wNet : String → Nat → AssetReply := fun _ _ => .ioError "down"

/-- Concrete arguments: explicit output directory `out`, mirror mode off. -/
def wArgs : Args := ⟨"http://h", "r", some "out", false, false⟩

/-- An `os.path.exists` oracle under which only `out` exists. -/
def wExists : String → Bool := fun p => p == "out"

/-! ## Helper lemmas: the downloader retry loop -/

lemma fsWrite_self (fs : FS) (p : String) (c : Content) :
    fsWrite fs p c p = some c := by
  simp [fsWrite]

lemma fsWrite_fsWrite (fs : FS) (p : String) (c c' : Content) :
    fsWrite (fsWrite fs p c) p c' = fsWrite fs p c' := by
  funext q
  by_cases h : q = p <;> simp [fsWrite, h]

lemma sha1_fsWrite (hash : Content → String) (fs : FS) (p : String) (c : Content) :
    sha1 hash (fsWrite fs p c) p = hash c := by
  simp [sha1, fsWrite]

/-- When every attempt in `pre ++ [tl]` is served a body whose digest does
not match, the loop exhausts all tries: it returns the terminal checksum
error, the file holds the last body, the trace is one GET/write/hash triple
per attempt, and the GET count equals the number of tries. -/
lemma dsaLoop_allMismatch (hash : Content → String) (filePath : String)
    (asset : Asset) (replies : Nat → AssetReply) (b : Nat → Content)
    (pre : List Nat) :
    ∀ (tl : Nat) (fs : FS),
      (∀ t ∈ pre ++ [tl], replies t = .body (b t)) →
      (∀ t ∈ pre ++ [tl], asset.checksumSha1 ≠ hash (b t)) →
      dsaLoop hash false filePath asset replies (pre ++ [tl]) fs =
        ⟨some "Repeated SHA-1 verification failure",
          fsWrite fs filePath (b tl),
          mismatchEvs asset.downloadUrl filePath b (pre ++ [tl]),
          (pre ++ [tl]).length⟩ := by
  induction pre with
  | nil =>
    intro tl fs hb hm
    have hb' := hb tl (by simp)
    have hm' := hm tl (by simp)
    simp [dsaLoop, hb', sha1_fsWrite, hm', mismatchEvs]
  | cons t pre ih =>
    intro tl fs hb hm
    have hb' := hb t (by simp)
    have hm' := hm t (by simp)
    have ihh := ih tl (fsWrite fs filePath (b t))
      (fun u hu => hb u (List.mem_cons_of_mem t hu))
      (fun u hu => hm u (List.mem_cons_of_mem t hu))
    simp only [List.cons_append, dsaLoop, hb', sha1_fsWrite]
    rw [if_neg hm']
    simp [ihh, fsWrite_fsWrite, mismatchEvs]

/-- When the attempts in `pre` are all served mismatching bodies and the
final attempt `tl` is served a body whose digest matches, the loop succeeds
on attempt `tl`: no error, the file holds the matching body, and the GET
count is `pre.length + 1`. -/
lemma dsaLoop_matchLast (hash : Content → String) (filePath : String)
    (asset : Asset) (replies : Nat → AssetReply) (b : Nat → Content)
    (ctl : Content) (pre : List Nat) :
    ∀ (tl : Nat) (fs : FS),
      (∀ t ∈ pre, replies t = .body (b t)) →
      (∀ t ∈ pre, asset.checksumSha1 ≠ hash (b t)) →
      replies tl = .body ctl →
      asset.checksumSha1 = hash ctl →
      dsaLoop hash false filePath asset replies (pre ++ [tl]) fs =
        ⟨none, fsWrite fs filePath ctl,
          mismatchEvs asset.downloadUrl filePath b pre ++
            [.get asset.downloadUrl, .write filePath ctl, .hashFile filePath],
          pre.length + 1⟩ := by
  induction pre with
  | nil =>
    intro tl fs _ _ hbtl heq
    simp [dsaLoop, hbtl, sha1_fsWrite, heq, mismatchEvs]
  | cons t pre ih =>
    intro tl fs hb hm hbtl heq
    have hb' := hb t (by simp)
    have hm' := hm t (by simp)
    have ihh := ih tl (fsWrite fs filePath (b t))
      (fun u hu => hb u (List.mem_cons_of_mem t hu))
      (fun u hu => hm u (List.mem_cons_of_mem t hu))
      hbtl heq
    simp only [List.cons_append, dsaLoop, hb', sha1_fsWrite]
    rw [if_neg hm']
    simp [ihh, fsWrite_fsWrite, mismatchEvs]

/-! ## C1, C2, C10: the retry loop of `download_single_asset` -/

/-- Claim C1: `download_single_asset` performs a bounded retry loop of at most
10 attempts: when the served bytes mismatch the descriptor's SHA-1 on
attempts 1 through 9 and match on attempt 10, it returns success (the
script's `False`, here `error = none`) having performed exactly 10 GET
requests; when they mismatch on all 10 attempts, it returns the terminal
`"Repeated SHA-1 verification failure"` after exactly 10 GET requests and
performs no 11th attempt. -/
theorem C1_retry_bound (hash : Content → String) (filePath : String)
    (asset : Asset) (replies : Nat → AssetReply) (b : Nat → Content) (fs : FS)
    (hb : ∀ t, 1 ≤ t → t ≤ 10 → replies t = .body (b t))
    (hm9 : ∀ t, 1 ≤ t → t ≤ 9 → asset.checksumSha1 ≠ hash (b t)) :
    (asset.checksumSha1 = hash (b 10) →
      (download_single_asset hash false filePath asset replies fs).error = none ∧
      (download_single_asset hash false filePath asset replies fs).gets = 10) ∧
    (asset.checksumSha1 ≠ hash (b 10) →
      (download_single_asset hash false filePath asset replies fs).error =
        some "Repeated SHA-1 verification failure" ∧
      (download_single_asset hash false filePath asset replies fs).gets = 10) := by
  have hsplit : List.range' 1 10 = List.range' 1 9 ++ [10] := by decide
  have hbPre : ∀ t ∈ List.range' 1 9, replies t = AssetReply.body (b t) := by
    intro t ht
    have h := List.mem_range'_1.mp ht
    exact hb t h.1 (by omega)
  have hmPre : ∀ t ∈ List.range' 1 9, asset.checksumSha1 ≠ hash (b t) := by
    intro t ht
    have h := List.mem_range'_1.mp ht
    exact hm9 t h.1 (by omega)
  constructor
  · intro hmatch
    have h := dsaLoop_matchLast hash filePath asset replies b (b 10)
      (List.range' 1 9) 10 fs hbPre hmPre (hb 10 (by omega) (by omega)) hmatch
    simp only [download_single_asset]
    rw [hsplit, h]
    simp [List.length_range']
  · intro hmis
    have hbAll : ∀ t ∈ List.range' 1 9 ++ [10], replies t = AssetReply.body (b t) := by
      intro t ht
      rcases List.mem_append.mp ht with h | h
      · exact hbPre t h
      · have ht10 : t = 10 := by simpa using h
        subst ht10
        exact hb 10 (by omega) (by omega)
    have hmAll : ∀ t ∈ List.range' 1 9 ++ [10], asset.checksumSha1 ≠ hash (b t) := by
      intro t ht
      rcases List.mem_append.mp ht with h | h
      · exact hmPre t h
      · have ht10 : t = 10 := by simpa using h
        subst ht10
        exact hmis
    have h := dsaLoop_allMismatch hash filePath asset replies b
      (List.range' 1 9) 10 fs hbAll hmAll
    simp only [download_single_asset]
    rw [hsplit, h]
    simp [List.length_range']

/-- Witness for C1 at a concrete input: digests mismatch on attempts 1-9 and
match on attempt 10, so the download succeeds with exactly 10 GETs. -/
theorem C1_retry_bound_witness :
    (download_single_asset wHash false "out/com/example/a.jar" wAsset wReplies wFs).error =
      none ∧
    (download_single_asset wHash false "out/com/example/a.jar" wAsset wReplies wFs).gets =
      10 :=
  (C1_retry_bound wHash "out/com/example/a.jar" wAsset wReplies (fun t => [t]) wFs
    (fun _ _ _ => rfl)
    (fun t _ h2 => by
      have hne : ([t] : Content) ≠ [10] := by
        intro h
        simp at h
        omega
      simp only [wHash]
      rw [if_neg hne]
      decide)).1 (by decide)

/-- Claim C10: failure is not atomic for the failing asset's file.  When all 10
attempts are served bodies whose digest mismatches, `download_single_asset`
returns the terminal `"Repeated SHA-1 verification failure"`, yet the file at
the computed path still exists and holds exactly the body of the 10th (last)
HTTP response: every attempt truncate-rewrites the file and the unverified
bytes are not deleted or rolled back on error. -/
theorem C10_terminal_keeps_last_body (hash : Content → String)
    (filePath : String) (asset : Asset) (replies : Nat → AssetReply)
    (b : Nat → Content) (fs : FS)
    (hb : ∀ t, 1 ≤ t → t ≤ 10 → replies t = .body (b t))
    (hm : ∀ t, 1 ≤ t → t ≤ 10 → asset.checksumSha1 ≠ hash (b t)) :
    (download_single_asset hash false filePath asset replies fs).error =
      some "Repeated SHA-1 verification failure" ∧
    (download_single_asset hash false filePath asset replies fs).fs filePath =
      some (b 10) ∧
    (download_single_asset hash false filePath asset replies fs).gets = 10 := by
  have hsplit : List.range' 1 10 = List.range' 1 9 ++ [10] := by decide
  have hbAll : ∀ t ∈ List.range' 1 9 ++ [10], replies t = AssetReply.body (b t) := by
    intro t ht
    rcases List.mem_append.mp ht with h | h
    · have hbd := List.mem_range'_1.mp h
      exact hb t hbd.1 (by omega)
    · have ht10 : t = 10 := by simpa using h
      subst ht10
      exact hb 10 (by omega) (by omega)
  have hmAll : ∀ t ∈ List.range' 1 9 ++ [10], asset.checksumSha1 ≠ hash (b t) := by
    intro t ht
    rcases List.mem_append.mp ht with h | h
    · have hbd := List.mem_range'_1.mp h
      exact hm t hbd.1 (by omega)
    · have ht10 : t = 10 := by simpa using h
      subst ht10
      exact hm 10 (by omega) (by omega)
  have h := dsaLoop_allMismatch hash filePath asset replies b
    (List.range' 1 9) 10 fs hbAll hmAll
  simp only [download_single_asset]
  rw [hsplit, h]
  simp [List.length_range', fsWrite_self]

/-- Witness for C10 at a concrete input: every attempt mismatches, the
result is the terminal error, and the file holds the 10th body `[10]`. -/
theorem C10_terminal_keeps_last_body_witness :
    (download_single_asset w2Hash false "out/com/example/b.jar" w2Asset wReplies wFs).error =
      some "Repeated SHA-1 verification failure" ∧
    (download_single_asset w2Hash false "out/com/example/b.jar" w2Asset wReplies wFs).fs
      "out/com/example/b.jar" = some [10] ∧
    (download_single_asset w2Hash false "out/com/example/b.jar" w2Asset wReplies wFs).gets =
      10 :=
  C10_terminal_keeps_last_body w2Hash "out/com/example/b.jar" w2Asset wReplies
    (fun t => [t]) wFs (fun _ _ _ => rfl)
    (fun t _ _ => by
      simp only [w2Hash, w2Asset]
      decide)

/-- Counterexample to claim C2 as stated: the script compares
`asset["checksum"]["sha1"] == sha1(file_path)` with Python's exact string
equality, not case-insensitively.  Here the served checksum `"AB"` differs
from the computed digest `"ab"` only in hex letter case, yet verification
never succeeds: every attempt is counted a mismatch and the download ends in
the terminal checksum error instead of being accepted as a match. -/
theorem C2_counterexample :
    pyLower "AB" = pyLower "ab" ∧
    (download_single_asset (fun _ => "ab") false "out/a"
        ⟨"/a", "u", 1, "AB"⟩ (fun _ => .body [0]) (fun _ => none)).error =
      some "Repeated SHA-1 verification failure" := by
  constructor
  · decide
  · decide

/-- Claim C2, amended: the digest comparison is Python's exact, case-sensitive
string equality.  A served checksum that differs from the locally computed
digest only in the letter case of its hex characters is therefore *not*
accepted: it is treated as a mismatch on every attempt and, with the same
body served each time, the download ends in the terminal checksum error. -/
theorem C2_case_sensitive_compare (hash : Content → String)
    (filePath : String) (asset : Asset) (c : Content) (fs : FS)
    (hne : asset.checksumSha1 ≠ hash c)
    (_hcase : pyLower asset.checksumSha1 = pyLower (hash c)) :
    (download_single_asset hash false filePath asset (fun _ => .body c) fs).error =
      some "Repeated SHA-1 verification failure" := by
  have h := dsaLoop_allMismatch hash filePath asset (fun _ => .body c)
    (fun _ => c) (List.range' 1 9) 10 fs (fun _ _ => rfl) (fun _ _ => hne)
  have hsplit : List.range' 1 10 = List.range' 1 9 ++ [10] := by decide
  simp only [download_single_asset]
  rw [hsplit, h]

/-- Witness for the amended C2 at a concrete input: expected digest `"AB"`,
computed digest `"ab"`, rejected with the terminal checksum error. -/
theorem C2_case_sensitive_compare_witness :
    (download_single_asset (fun _ => "ab") false "out/a"
        ⟨"/a", "u", 1, "AB"⟩ (fun _ => .body [0]) (fun _ => none)).error =
      some "Repeated SHA-1 verification failure" :=
  C2_case_sensitive_compare (fun _ => "ab") "out/a" ⟨"/a", "u", 1, "AB"⟩ [0]
    (fun _ => none) (by decide) (by decide)

/-! ## C6: the mirror-mode skip, C9: the local path computation -/

/-- Claim C6: in mirror mode, an asset whose computed local path already holds
a file whose size exactly equals `fileSize` is skipped entirely: processing
the listing with that asset in front is literally the same run as processing
the rest, so the skipped asset contributes zero network calls, zero hash
computations and zero filesystem mutations, and the existing file is left
unmodified. -/
theorem C6_mirror_skip (hash : Content → String) (outputDir : String)
    (noVerify : Bool) (net : String → Nat → AssetReply) (a : Asset)
    (rest : List Asset) (fs : FS) (c : Content)
    (hfile : fs (localFilePath outputDir a.path) = some c)
    (hsize : c.length = a.fileSize) :
    download_assets hash outputDir noVerify true net (a :: rest) fs =
      download_assets hash outputDir noVerify true net rest fs := by
  simp [download_assets, isFileWithSize, hfile, hsize]

/-- Witness for C6 at a concrete input: `out/com/example/a.jar` already holds
3 bytes and the descriptor's `fileSize` is 3, so the asset is skipped. -/
theorem C6_mirror_skip_witness :
    download_assets wHash "out" false true wNet [wAsset] wFs6 =
      download_assets wHash "out" false true wNet [] wFs6 :=
  C6_mirror_skip wHash "out" false wNet wAsset [] wFs6 [0, 0, 0]
    (by decide) (by decide)

/-- Claim C9: the computed local file path joins the root with the descriptor
path stripped of all leading separators: the stripped path never starts with
`/`, and for a nonempty root not ending in `/` the result is exactly
`root ++ "/" ++ strippedPath`, so no separator is doubled at the seam; in
particular path `"/com/example/lib-1.0.jar"` with root `"out"` yields exactly
`"out/com/example/lib-1.0.jar"`. -/
theorem C9_local_path (outputDir assetPath : String)
    (hne : outputDir ≠ "") (hslash : pyEndsWith outputDir "/" = false) :
    localFilePath outputDir assetPath =
      outputDir ++ "/" ++ lstripSlash assetPath ∧
    pyStartsWith (lstripSlash assetPath) "/" = false ∧
    localFilePath "out" "/com/example/lib-1.0.jar" =
      "out/com/example/lib-1.0.jar" := by
  have hlead : pyStartsWith (lstripSlash assetPath) "/" = false := by
    have aux : ∀ l : List Char,
        List.isPrefixOf ['/'] (l.dropWhile (fun c => c == '/')) = false := by
      intro l
      induction l with
      | nil => rfl
      | cons c cs ih =>
        by_cases h : (c == '/') = true
        · simpa [List.dropWhile, h] using ih
        · have hcne : c ≠ '/' := by
            intro hc
            simp [hc] at h
          have : (('/' : Char) == c) = false :=
            beq_eq_false_iff_ne.mpr (Ne.symm hcne)
          simp [List.dropWhile, h, List.isPrefixOf, this]
    simpa [pyStartsWith, lstripSlash] using aux assetPath.toList
  refine ⟨?_, hlead, by decide⟩
  rw [localFilePath, pathJoin, if_neg (by simp [hlead]), if_neg (by simp [hne, hslash])]

/-- Witness for C9 at a concrete input: root `"out"` is nonempty and does
not end in a separator. -/
theorem C9_local_path_witness :
    localFilePath "out" "/lib/x.jar" = "out" ++ "/" ++ lstripSlash "/lib/x.jar" ∧
    pyStartsWith (lstripSlash "/lib/x.jar") "/" = false ∧
    localFilePath "out" "/com/example/lib-1.0.jar" =
      "out/com/example/lib-1.0.jar" :=
  C9_local_path "out" "/lib/x.jar" (by decide) (by decide)

/-! ## Helper lemmas: the pagination loop -/

lemma CT_truthy_some (t : String) (h : t ≠ "") : (CT.tok (some t)).truthy = true := by
  simp [CT.truthy, h]

lemma fetchLoop_falsy (sUrl rName api : String) (replies : List ListingReply)
    (token : CT) (acc : List Asset) (h : token.truthy = false) :
    fetchLoop sUrl rName api replies token acc = (.ok acc, []) := by
  cases replies <;> simp [fetchLoop, h]

lemma lastCT_truthy (ps : List PageData) :
    ∀ token : CT, token.truthy = true → (∀ p ∈ ps, p.2 ≠ "") →
      (lastCT token ps).truthy = true := by
  induction ps with
  | nil =>
    intro token htok _
    simpa [lastCT] using htok
  | cons p rest ih =>
    intro token _ hps
    simp only [lastCT]
    exact ih (CT.tok (some p.2)) (CT_truthy_some p.2 (hps p (by simp)))
      (fun q hq => hps q (List.mem_cons_of_mem p hq))

/-- Driving the loop through a block of well-formed non-final pages: their
items are appended in order, one URL is requested per page, and the loop
continues on the remaining replies with the last page's token. -/
lemma fetch_drive (sUrl rName api : String) (ps : List PageData) :
    ∀ (rest : List ListingReply) (token : CT) (acc : List Asset),
      token.truthy = true → (∀ p ∈ ps, p.2 ≠ "") →
      fetchLoop sUrl rName api (encodePages ps ++ rest) token acc =
        ((fetchLoop sUrl rName api rest (lastCT token ps)
            (acc ++ (ps.map Prod.fst).flatten)).1,
          urlsOf api token ps ++
            (fetchLoop sUrl rName api rest (lastCT token ps)
              (acc ++ (ps.map Prod.fst).flatten)).2) := by
  induction ps with
  | nil =>
    intro rest token acc _ _
    simp [encodePages, lastCT, urlsOf]
  | cons p ps' ih =>
    intro rest token acc htok hps
    have htok' : (CT.tok (some p.2)).truthy = true :=
      CT_truthy_some p.2 (hps p (by simp))
    have hps' : ∀ q ∈ ps', q.2 ≠ "" := fun q hq => hps q (List.mem_cons_of_mem p hq)
    simp only [encodePages, List.map_cons, List.cons_append]
    rw [fetchLoop]
    simp only [htok, if_true]
    rw [show encodePages ps' = List.map
        (fun q => ListingReply.page (some q.1) (some (some q.2))) ps' from rfl] at ih
    rw [ih rest (CT.tok (some p.2)) (acc ++ p.1) htok' hps']
    simp [lastCT, urlsOf, List.append_assoc]

/-- A full well-formed run: non-final pages `ps`, then a final page whose
`continuationToken` is null.  The loop returns the ordered concatenation of
all items and requests exactly one URL per page; any further available
replies `extra` are never requested. -/
lemma fetch_run_final (sUrl rName api : String) (ps : List PageData)
    (its : List Asset) (extra : List ListingReply) (token : CT)
    (acc : List Asset) (htok : token.truthy = true)
    (hps : ∀ p ∈ ps, p.2 ≠ "") :
    fetchLoop sUrl rName api
        (encodePages ps ++ ListingReply.page (some its) (some none) :: extra)
        token acc =
      (.ok (acc ++ (ps.map Prod.fst).flatten ++ its),
        urlsOf api token ps ++ [queryUrl api (lastCT token ps)]) := by
  rw [fetch_drive sUrl rName api ps _ token acc htok hps]
  have htok' := lastCT_truthy ps token htok hps
  rw [fetchLoop]
  simp only [htok', if_true]
  rw [fetchLoop_falsy sUrl rName api extra (CT.tok none) _ (by simp [CT.truthy])]

/-- A run hitting a non-JSON response after the well-formed pages `ps`:
`abort(3)` with the diagnostic message, one URL per page plus the failing
request, and no retry. -/
lemma fetch_run_badJson (sUrl rName api : String) (ps : List PageData)
    (extra : List ListingReply) (token : CT) (acc : List Asset)
    (htok : token.truthy = true) (hps : ∀ p ∈ ps, p.2 ≠ "") :
    fetchLoop sUrl rName api (encodePages ps ++ ListingReply.badJson :: extra)
        token acc =
      (.abort 3 (jsonErrMsg sUrl rName),
        urlsOf api token ps ++ [queryUrl api (lastCT token ps)]) := by
  rw [fetch_drive sUrl rName api ps _ token acc htok hps]
  have htok' := lastCT_truthy ps token htok hps
  rw [fetchLoop]
  simp [htok']

/-- A run hitting a response without the `continuationToken` key after the
well-formed pages `ps`: an uncaught `KeyError` before that page's items are
ingested, and no further request. -/
lemma fetch_run_missingTok (sUrl rName api : String) (ps : List PageData)
    (its : Option (List Asset)) (extra : List ListingReply) (token : CT)
    (acc : List Asset) (htok : token.truthy = true)
    (hps : ∀ p ∈ ps, p.2 ≠ "") :
    fetchLoop sUrl rName api
        (encodePages ps ++ ListingReply.page its none :: extra) token acc =
      (.keyError "continuationToken",
        urlsOf api token ps ++ [queryUrl api (lastCT token ps)]) := by
  rw [fetch_drive sUrl rName api ps _ token acc htok hps]
  have htok' := lastCT_truthy ps token htok hps
  rw [fetchLoop]
  simp [htok']

lemma urlsOf_length (api : String) (ps : List PageData) :
    ∀ token : CT, (urlsOf api token ps).length = ps.length := by
  induction ps with
  | nil => intro token; rfl
  | cons p rest ih =>
    intro token
    simp [urlsOf, ih]

/-- Closed form of the full request-URL trace: the bare API URL first, then
the API URL with each page's token appended, in order. -/
lemma urlsOf_snoc (api : String) (ps : List PageData) :
    ∀ token : CT,
      urlsOf api token ps ++ [queryUrl api (lastCT token ps)] =
        queryUrl api token ::
          ps.map (fun p => api ++ "&continuationToken=" ++ p.2) := by
  induction ps with
  | nil =>
    intro token
    simp [urlsOf, lastCT]
  | cons p rest ih =>
    intro token
    simp only [urlsOf, lastCT, List.cons_append, List.map_cons]
    rw [ih (CT.tok (some p.2))]
    simp [queryUrl]

/-! ## C3, C4, C5, C8: the asset-listing fetcher -/

/-- Claim C3: pagination is lossless and order-preserving.  For every run of
catalog pages returned by the server (non-final pages with non-empty tokens,
then a final page with a null token), `fetch_asset_listing` returns exactly
the concatenation of all pages' `items` arrays in server-returned order: no
item is dropped, duplicated by the client, or reordered, and no
deduplication is performed. -/
theorem C3_pagination_concat (serverUrl repoName : String)
    (ps : List PageData) (lastIts : List Asset)
    (hps : ∀ p ∈ ps, p.2 ≠ "") :
    (fetch_asset_listing serverUrl repoName
        (encodePages ps ++ [ListingReply.page (some lastIts) (some none)])).1 =
      .ok ((ps.map Prod.fst).flatten ++ lastIts) := by
  rw [fetch_asset_listing,
    fetch_run_final serverUrl repoName (nexusApi serverUrl repoName) ps lastIts []
      .first [] rfl hps]
  simp

/-- Witness for C3 at a concrete input: one non-final page holding `wAsset`
followed by a final page holding `w2Asset` yields the listing
`[wAsset, w2Asset]`. -/
theorem C3_pagination_concat_witness :
    (fetch_asset_listing "http://h/" "r"
        (encodePages [([wAsset], "t1")] ++
          [ListingReply.page (some [w2Asset]) (some none)])).1 =
      .ok (([([wAsset], "t1")].map Prod.fst).flatten ++ [w2Asset]) :=
  C3_pagination_concat "http://h/" "r" [([wAsset], "t1")] [w2Asset] (by decide)

/-- Counterexample to claim C4 as stated: a listing response *missing* the
`continuationToken` key does not terminate pagination cleanly — line 99
(`resp["continuationToken"]`) raises an uncaught `KeyError` before line 100
ingests the page's items, so an error *is* raised and the items are never
returned. -/
theorem C4_counterexample :
    (fetch_asset_listing "http://h/" "r"
        [ListingReply.page (some [⟨"/a", "u", 1, "s"⟩]) none]).1 =
      FetchRes.keyError "continuationToken" := by
  decide

/-- Claim C4, amended: a listing response whose `continuationToken` is null
terminates pagination after ingesting that response's items exactly once and
issues no further request (even when more replies would be available); a
response *missing* the key instead raises an uncaught `KeyError` before that
response's items are ingested, likewise issuing no further request. -/
theorem C4_token_termination (serverUrl repoName : String) (ps : List PageData)
    (its its2 : List Asset) (extra extra2 : List ListingReply)
    (hps : ∀ p ∈ ps, p.2 ≠ "") :
    ((fetch_asset_listing serverUrl repoName
        (encodePages ps ++ ListingReply.page (some its) (some none) :: extra)).1 =
          .ok ((ps.map Prod.fst).flatten ++ its) ∧
      (fetch_asset_listing serverUrl repoName
        (encodePages ps ++ ListingReply.page (some its) (some none) :: extra)).2.length =
          ps.length + 1) ∧
    ((fetch_asset_listing serverUrl repoName
        (encodePages ps ++ ListingReply.page (some its2) none :: extra2)).1 =
          .keyError "continuationToken" ∧
      (fetch_asset_listing serverUrl repoName
        (encodePages ps ++ ListingReply.page (some its2) none :: extra2)).2.length =
          ps.length + 1) := by
  constructor
  · rw [fetch_asset_listing,
      fetch_run_final serverUrl repoName (nexusApi serverUrl repoName) ps its extra
        .first [] rfl hps]
    simp [urlsOf_length]
  · rw [fetch_asset_listing,
      fetch_run_missingTok serverUrl repoName (nexusApi serverUrl repoName) ps
        (some its2) extra2 .first [] rfl hps]
    simp [urlsOf_length]

/-- Witness for the amended C4 at a concrete input, with further replies
available after the terminating (resp. failing) page: exactly 2 requests are
issued in both runs. -/
theorem C4_token_termination_witness :
    ((fetch_asset_listing "http://h/" "r"
        (encodePages [([wAsset], "t1")] ++
          ListingReply.page (some [w2Asset]) (some none) :: [ListingReply.badJson])).1 =
          .ok (([([wAsset], "t1")].map Prod.fst).flatten ++ [w2Asset]) ∧
      (fetch_asset_listing "http://h/" "r"
        (encodePages [([wAsset], "t1")] ++
          ListingReply.page (some [w2Asset]) (some none) :: [ListingReply.badJson])).2.length =
          [([wAsset], "t1")].length + 1) ∧
    ((fetch_asset_listing "http://h/" "r"
        (encodePages [([wAsset], "t1")] ++
          ListingReply.page (some [w2Asset]) none :: [ListingReply.badJson])).1 =
          .keyError "continuationToken" ∧
      (fetch_asset_listing "http://h/" "r"
        (encodePages [([wAsset], "t1")] ++
          ListingReply.page (some [w2Asset]) none :: [ListingReply.badJson])).2.length =
          [([wAsset], "t1")].length + 1) :=
  C4_token_termination "http://h/" "r" [([wAsset], "t1")] [w2Asset] [w2Asset]
    [ListingReply.badJson] [ListingReply.badJson] (by decide)

/-- Counterexample to claim C5 as stated: a response that *is* JSON but lacks a
required key is not turned into the `ProtocolError` path (`abort(3)` with
the diagnostic message); it raises an uncaught `KeyError` instead. -/
theorem C5_counterexample :
    (fetch_asset_listing "http://h/" "r"
        [ListingReply.page none (some (some "t"))]).1 = FetchRes.keyError "items" ∧
    FetchRes.keyError "items" ≠ FetchRes.abort 3 (jsonErrMsg "http://h/" "r") := by
  constructor
  · decide
  · decide

/-- Claim C5, amended: a listing response whose body is not JSON is fatal with
the distinct protocol failure `abort(3)`, whose message names the server URL
and the repository, and no retry is performed (no further request after the
failing one); a response that parses as JSON but lacks a required key
instead raises an uncaught `KeyError`, not the `ProtocolError` path. -/
theorem C5_nonjson_aborts (serverUrl repoName : String) (ps : List PageData)
    (its : Option (List Asset)) (extra extra2 : List ListingReply)
    (hps : ∀ p ∈ ps, p.2 ≠ "") :
    ((fetch_asset_listing serverUrl repoName
        (encodePages ps ++ ListingReply.badJson :: extra)).1 =
          .abort 3 (jsonErrMsg serverUrl repoName) ∧
      (fetch_asset_listing serverUrl repoName
        (encodePages ps ++ ListingReply.badJson :: extra)).2.length =
          ps.length + 1) ∧
    jsonErrMsg serverUrl repoName =
      "Cannot decode JSON response. Are you sure that the server URL " ++
        serverUrl ++ " is correct and the repository '" ++ repoName ++
        "' actually exists?" ∧
    (fetch_asset_listing serverUrl repoName
        (encodePages ps ++ ListingReply.page its none :: extra2)).1 =
      .keyError "continuationToken" := by
  refine ⟨?_, rfl, ?_⟩
  · rw [fetch_asset_listing,
      fetch_run_badJson serverUrl repoName (nexusApi serverUrl repoName) ps extra
        .first [] rfl hps]
    simp [urlsOf_length]
  · rw [fetch_asset_listing,
      fetch_run_missingTok serverUrl repoName (nexusApi serverUrl repoName) ps its
        extra2 .first [] rfl hps]

/-- Witness for the amended C5 at a concrete input: the non-JSON response on
the second request aborts with code 3 after exactly 2 requests, and the
message names the server URL and the repository. -/
theorem C5_nonjson_aborts_witness :
    ((fetch_asset_listing "http://h/" "r"
        (encodePages [([wAsset], "t1")] ++ ListingReply.badJson :: [])).1 =
          .abort 3 (jsonErrMsg "http://h/" "r") ∧
      (fetch_asset_listing "http://h/" "r"
        (encodePages [([wAsset], "t1")] ++ ListingReply.badJson :: [])).2.length =
          [([wAsset], "t1")].length + 1) ∧
    jsonErrMsg "http://h/" "r" =
      "Cannot decode JSON response. Are you sure that the server URL " ++
        "http://h/" ++ " is correct and the repository '" ++ "r" ++
        "' actually exists?" ∧
    (fetch_asset_listing "http://h/" "r"
        (encodePages [([wAsset], "t1")] ++ ListingReply.page none none :: [])).1 =
      .keyError "continuationToken" :=
  C5_nonjson_aborts "http://h/" "r" [([wAsset], "t1")] none [] [] (by decide)

/-- Counterexample to claim C8 as stated: the listing URL is *not* always
`baseURL/service/rest/v1/assets?repository=<name>` with the base URL's own
path preserved.  For the base URL `http://host/nexus` the script requests
`http://host/service/rest/v1/assets?repository=r` — `urljoin` drops the
trailing path segment `nexus` because it does not end in `/`. -/
theorem C8_counterexample :
    (fetch_asset_listing "http://host/nexus" "r"
        [ListingReply.page (some []) (some none)]).2 =
      ["http://host/service/rest/v1/assets?repository=r"] ∧
    "http://host/service/rest/v1/assets?repository=r" ≠
      "http://host/nexus/service/rest/v1/assets?repository=r" := by
  constructor
  · decide
  · decide

/-- Claim C8, amended: the listing URL is the relative resolution
(`urllib.parse.urljoin`) of `service/rest/v1/assets?repository=<name>`
against the base URL, which keeps the base URL's path only up to and
including its last `/` (a trailing non-slash segment is dropped); when the
base URL ends in `/` this equals the base URL with the service path
appended.  `&continuationToken=<token>` is appended on every call after the
first and is absent on the first call. -/
theorem C8_listing_urls (serverUrl repoName : String) (ps : List PageData)
    (lastIts : List Asset) (extra : List ListingReply)
    (hps : ∀ p ∈ ps, p.2 ≠ "") :
    (fetch_asset_listing serverUrl repoName
        (encodePages ps ++ ListingReply.page (some lastIts) (some none) :: extra)).2 =
      nexusApi serverUrl repoName ::
        ps.map (fun p => nexusApi serverUrl repoName ++ "&continuationToken=" ++ p.2) ∧
    nexusApi "http://host/nexus/" "r" =
      "http://host/nexus/" ++ "service/rest/v1/assets?repository=" ++ "r" := by
  constructor
  · rw [fetch_asset_listing,
      fetch_run_final serverUrl repoName (nexusApi serverUrl repoName) ps lastIts
        extra .first [] rfl hps]
    rw [show ((FetchRes.ok (([] : List Asset) ++ (ps.map Prod.fst).flatten ++ lastIts),
        urlsOf (nexusApi serverUrl repoName) .first ps ++
          [queryUrl (nexusApi serverUrl repoName) (lastCT .first ps)]).2 =
        urlsOf (nexusApi serverUrl repoName) .first ps ++
          [queryUrl (nexusApi serverUrl repoName) (lastCT .first ps)]) from rfl]
    rw [urlsOf_snoc (nexusApi serverUrl repoName) ps .first]
    simp [queryUrl]
  · decide

/-- Witness for the amended C8 at a concrete input: a two-request run against
`http://h/` requests the bare API URL first and the tokenized URL second. -/
theorem C8_listing_urls_witness :
    (fetch_asset_listing "http://h/" "r"
        (encodePages [([wAsset], "t1")] ++
          ListingReply.page (some []) (some none) :: [])).2 =
      nexusApi "http://h/" "r" ::
        [([wAsset], "t1")].map
          (fun p => nexusApi "http://h/" "r" ++ "&continuationToken=" ++ p.2) ∧
    nexusApi "http://host/nexus/" "r" =
      "http://host/nexus/" ++ "service/rest/v1/assets?repository=" ++ "r" :=
  C8_listing_urls "http://h/" "r" [([wAsset], "t1")] [] [] (by decide)

/-! ## C7: the pre-run output-directory check in `main` -/

/-- Claim C7: when mirror mode is off and the resolved output directory already
exists, the run fails fast with `abort(1)` (the precondition failure) before
issuing any HTTP request and before writing anything to the filesystem: the
event trace is empty and the filesystem is returned untouched. -/
theorem C7_precondition_abort (hash : Content → String) (args : Args)
    (exists0 : String → Bool) (listingReplies : List ListingReply)
    (net : String → Nat → AssetReply) (fs : FS)
    (hmirror : args.mirror = false)
    (hexists : exists0 (resolveOutputDir args) = true) :
    main_model hash args exists0 listingReplies net fs =
      (.abort 1 ("Output directory '" ++ resolveOutputDir args ++
          "' already exists. Please delete it and then re-run the script."),
        fs, []) := by
  simp [main_model, hmirror, hexists]

/-- Witness for C7 at a concrete input: output directory `out` exists and
mirror mode is off, so the run aborts with code 1 and an empty effect
trace. -/
theorem C7_precondition_abort_witness :
    main_model wHash wArgs wExists [] wNet wFs =
      (.abort 1 ("Output directory '" ++ resolveOutputDir wArgs ++
          "' already exists. Please delete it and then re-run the script."),
        wFs, []) :=
  C7_precondition_abort wHash wArgs wExists [] wNet wFs rfl (by decide)

end Nexus3
